import Mathlib

/-!
# Verification of the device liveness monitor (water-system-dashboard)

Shallow embedding of the liveness-monitor core of the repository:
`src/lib/yolink-mqtt.js` (event log, per-sensor summaries, hourly timeline,
offline sweep, message handler, token cache) and the uptime statistics of
`src/api/routes/sensors.js`.

Modelling conventions:
* Timestamps are milliseconds since the epoch, as `Nat` (the JS code stores
  ISO strings and compares their `getTime()` values; all timestamps produced
  by `Date.now()` are nonnegative).
* JS objects used as string-keyed maps are modelled as functions
  `DeviceId → Option v` (`none` = key absent / `undefined`).
* The per-device timeline object (`timeline[deviceId]`) is modelled as an
  association list `List (Nat × String)` in object-key insertion order, since
  the code enumerates and counts its entries (`Object.entries`, `filter`).
* JS `a < b - c` over number timestamps is rendered as `a + c < b`, which is
  equivalent over the integers and avoids `Nat` truncation artefacts.
* JS truthiness on strings (`''` is falsy) is modelled explicitly; numeric
  sensor values are `ℚ` (the code divides and averages them).
* Fields that are purely human-readable diagnostics (`silentForHuman`,
  `possibleCauses`, `offlineDurationHuman`, console output, the diagnostic `raw`
  payload copy) are not modelled; no claim mentions them.
* Stateful functions become state transformers; functions that append to the
  event log also return the list of events they appended (the code pushes
  these same event objects), so properties about "emitted events" can be
  stated without reference to log trimming.
-/

namespace WaterSystem

abbrev DeviceId := String

/-- Connectivity states stored in the `sensorStatus` map
(`'online' | 'stale' | 'offline'`; absence of a key = never classified). -/
inductive Status
  | online
  | stale
  | offline
  deriving DecidableEq, Repr

/-- Event types written by `logEvent` (`yolink-mqtt.js` line 193). -/
inductive EventType
  | online
  | offline
  | stale
  | startup
  | reading
  | system
  | hub_offline
  | hub_online
  deriving DecidableEq, Repr

-- ─── Configuration constants (`yolink-mqtt.js` lines 35-47) ───

def STALE_THRESHOLD_MS : Nat := 30 * 60 * 1000

def OFFLINE_THRESHOLD_MS : Nat := 2 * 60 * 60 * 1000

def MAX_EVENT_LOG_SIZE : Nat := 500

/-- The timeline retention window: 7 days in ms (`yolink-mqtt.js` line 133). -/
def RETENTION_MS : Nat := 7 * 24 * 60 * 60 * 1000

/-- One event record.  `details` is modelled by its only field that other
code reads back, `offlineDurationMs` (attached only on `online` events);
`deviceId`/`deviceName` are `none` for system events. -/
structure Event where
  timestamp : Nat
  type : EventType
  deviceId : Option DeviceId
  deviceName : Option String
  offlineDurationMs : Option Int
  deriving DecidableEq, Repr

/-- Per-sensor rolling summary (`eventLog.sensors[deviceId]`,
`yolink-mqtt.js` lines 203-213). -/
structure SensorSummary where
  name : Option String
  firstSeen : Nat
  totalOfflineEvents : Nat
  totalStaleEvents : Nat
  lastOfflineAt : Option Nat
  lastStaleAt : Option Nat
  lastOnlineAt : Option Nat
  lastReading : Option Nat
  currentStatus : String
  deriving DecidableEq, Repr

/-- The persisted event log snapshot `{ events: [], sensors: {} }`. -/
structure EventLog where
  events : List Event
  sensors : DeviceId → Option SensorSummary

/-- Pointwise update of a string-keyed JS object (`m[d] = v`). -/
def updMap {α : Type} (m : DeviceId → Option α) (d : DeviceId) (v : α) :
    DeviceId → Option α :=
  fun x => if x = d then some v else m x

/-- `saveEventLog` (`yolink-mqtt.js` lines 181-186): if the event list
exceeds `MAX_EVENT_LOG_SIZE`, keep only the last `MAX_EVENT_LOG_SIZE`
entries (`log.events.slice(-MAX_EVENT_LOG_SIZE)`), then persist. -/
def saveEventLog (log : EventLog) : EventLog :=
  if log.events.length > MAX_EVENT_LOG_SIZE then
    { log with events := log.events.drop (log.events.length - MAX_EVENT_LOG_SIZE) }
  else
    log

/-- The fresh summary created on the first event for a device
(`yolink-mqtt.js` lines 202-214). -/
def initSummary (deviceName : Option String) (ts : Nat) : SensorSummary :=
  { name := deviceName
    firstSeen := ts
    totalOfflineEvents := 0
    totalStaleEvents := 0
    lastOfflineAt := none
    lastStaleAt := none
    lastOnlineAt := none
    lastReading := none
    currentStatus := "unknown" }

/-- JS truthiness of the `deviceId` argument of `logEvent`
(`null`/`undefined` and `''` are falsy). -/
def idTruthy : Option DeviceId → Bool
  | some s => decide (s ≠ "")
  | none => false

/-- `logEvent` (`yolink-mqtt.js` lines 188-252): build the event, append it,
update the per-sensor summary, and persist through `saveEventLog`.  On an
`online` event the code computes
`downSince = sensor.lastOfflineAt || sensor.lastStaleAt` and, when truthy,
attaches `event.details.offlineDurationMs = event.timestamp - downSince`.
Returns the new log together with the event object that was pushed. -/
def logEvent (log : EventLog) (ty : EventType) (deviceId : Option DeviceId)
    (deviceName : Option String) (now : Nat) : EventLog × Event :=
  let ev0 : Event :=
    { timestamp := now, type := ty, deviceId := deviceId,
      deviceName := deviceName, offlineDurationMs := none }
  if idTruthy deviceId then
    let d := deviceId.getD ""
    let s0 := (log.sensors d).getD (initSummary deviceName now)
    let s1 := { s0 with name := deviceName }
    match ty with
    | EventType.online =>
        let dur : Option Int :=
          (s1.lastOfflineAt.or s1.lastStaleAt).map (fun ds => (now : Int) - (ds : Int))
        let s2 := { s1 with lastOnlineAt := some now, currentStatus := "online" }
        let ev := { ev0 with offlineDurationMs := dur }
        (saveEventLog { events := log.events ++ [ev],
                        sensors := updMap log.sensors d s2 }, ev)
    | EventType.offline =>
        let s2 := { s1 with lastOfflineAt := some now,
                            totalOfflineEvents := s1.totalOfflineEvents + 1,
                            currentStatus := "offline" }
        (saveEventLog { events := log.events ++ [ev0],
                        sensors := updMap log.sensors d s2 }, ev0)
    | EventType.stale =>
        let s2 := { s1 with lastStaleAt := some now,
                            totalStaleEvents := s1.totalStaleEvents + 1,
                            currentStatus := "stale" }
        (saveEventLog { events := log.events ++ [ev0],
                        sensors := updMap log.sensors d s2 }, ev0)
    | EventType.reading =>
        let s2 := { s1 with lastReading := some now, currentStatus := "online" }
        (saveEventLog { events := log.events ++ [ev0],
                        sensors := updMap log.sensors d s2 }, ev0)
    | _ =>
        (saveEventLog { events := log.events ++ [ev0],
                        sensors := updMap log.sensors d s1 }, ev0)
  else
    (saveEventLog { log with events := log.events ++ [ev0] }, ev0)

-- ─── Timeline (hourly buckets, `yolink-mqtt.js` lines 116-141) ───

/-- `getHourBucketKey`: floor the timestamp to the hour
(`d.setMinutes(0, 0, 0)`), keyed in ms. -/
def getHourBucketKey (t : Nat) : Nat :=
  (t / 3600000) * 3600000

/-- Write into a JS object key: overwrite an existing entry in place,
otherwise append a new entry (object-key insertion order). -/
def upsertBucket (buckets : List (Nat × String)) (k : Nat) (s : String) :
    List (Nat × String) :=
  if buckets.any (fun p => p.1 = k) then
    buckets.map (fun p => if p.1 = k then (k, s) else p)
  else
    buckets ++ [(k, s)]

/-- `updateTimeline` (`yolink-mqtt.js` lines 122-141): write `status` into
this hour's bucket for `deviceId`, then delete every bucket of that device
whose key is older than seven days before `now`
(`key < now - RETENTION_MS`, rendered as `key + RETENTION_MS < now`). -/
def updateTimeline (tl : DeviceId → List (Nat × String)) (deviceId : DeviceId)
    (status : String) (now : Nat) : DeviceId → List (Nat × String) :=
  let bucketKey := getHourBucketKey now
  let written := upsertBucket (tl deviceId) bucketKey status
  let pruned := written.filter (fun p => decide (now ≤ p.1 + RETENTION_MS))
  fun x => if x = deviceId then pruned else tl x

/-- Lookup of a bucket key in the association-list rendering of a JS object. -/
def bucketLookup (buckets : List (Nat × String)) (k : Nat) : Option String :=
  (buckets.find? (fun p => p.1 = k)).map (fun p => p.2)

-- ─── Token cache (`getAccessToken`, `yolink-mqtt.js` lines 145-173) ───

/-- The module-level token cache: `accessToken` (`null` initially) and
`tokenExpiry` (ms timestamp, `0` initially). -/
structure TokenState where
  accessToken : Option String
  tokenExpiry : Nat
  deriving DecidableEq, Repr

/-- The decoded body of the token-endpoint response: `access_token` and
`expires_in` (seconds), each possibly absent. -/
structure TokenResponse where
  access_token : Option String
  expires_in : Option Nat
  deriving DecidableEq, Repr

/-- JS truthiness of an optional string (`null`/`undefined` and `''` falsy). -/
def strTruthy : Option String → Bool
  | some s => decide (s ≠ "")
  | none => false

/-- `getAccessToken`: return the cached token if it is truthy and
`now < tokenExpiry - 300000` (rendered `now + 300000 < tokenExpiry`);
otherwise perform the exchange (`resp` is the decoded response of that
network call).  A truthy `access_token` is cached with
`tokenExpiry = now + (expires_in || 7200) * 1000`; otherwise the function
throws (`Except.error`).  The boolean records whether an exchange was
performed. -/
def getAccessToken (st : TokenState) (now : Nat) (resp : TokenResponse) :
    (Except String (String × TokenState)) × Bool :=
  if strTruthy st.accessToken ∧ now + 300000 < st.tokenExpiry then
    (Except.ok (st.accessToken.getD "", st), false)
  else if strTruthy resp.access_token then
    let t := resp.access_token.getD ""
    let ttl : Nat :=
      match resp.expires_in with
      | some n => if n = 0 then 7200 else n
      | none => 7200
    (Except.ok (t, { accessToken := some t, tokenExpiry := now + ttl * 1000 }), true)
  else
    (Except.error "Failed to get access token", true)

-- ─── Uptime statistics (`calculateStats`, `sensors.js` lines 43-86) ───

/-- JS truthiness of `e.details?.offlineDurationMs` (absent or `0` falsy). -/
def durTruthy : Option Int → Bool
  | some v => decide (v ≠ 0)
  | none => false

/-- The record returned by `calculateStats` (human-readable duration strings
omitted). -/
structure SensorStats where
  uptimePercent : Option ℚ
  totalOfflineEvents : Nat
  totalStaleEvents : Nat
  longestOutageMs : Int
  avgOutageMs : ℚ
  totalBuckets : Nat
  onlineBuckets : Nat
  deriving DecidableEq, Repr

/-- `Math.max(...durs)` over a list guarded to be nonempty. -/
def listMax : List Int → Int
  | [] => 0
  | d :: ds => ds.foldl max d

/-- `calculateStats` (`sensors.js` lines 43-86).  `timeline` is
`Object.entries` of the device's bucket object; `events` the full event
list of the log snapshot. -/
def calculateStats (timeline : List (Nat × String)) (events : List Event)
    (deviceId : DeviceId) : SensorStats :=
  let totalBuckets := timeline.length
  let onlineBuckets := (timeline.filter (fun p => decide (p.2 = "online"))).length
  let uptimePercent : Option ℚ :=
    if totalBuckets > 0 then
      some (((round ((onlineBuckets : ℚ) / (totalBuckets : ℚ) * 1000) : ℤ) : ℚ) / 10)
    else none
  let sensorOfflineEvents := events.filter
    (fun e => decide (e.deviceId = some deviceId ∧ e.type = EventType.offline))
  let recoveryEvents := events.filter
    (fun e => decide (e.deviceId = some deviceId ∧ e.type = EventType.online)
      && durTruthy e.offlineDurationMs)
  let durs := recoveryEvents.map (fun e => e.offlineDurationMs.getD 0)
  let longestOutageMs : Int :=
    if recoveryEvents.length > 0 then listMax durs else 0
  let avgOutageMs : ℚ :=
    if recoveryEvents.length > 0 then
      ((durs.foldl (· + ·) 0 : Int) : ℚ) / (recoveryEvents.length : ℚ)
    else 0
  let staleEvents := events.filter
    (fun e => decide (e.deviceId = some deviceId ∧ e.type = EventType.stale))
  { uptimePercent := uptimePercent
    totalOfflineEvents := sensorOfflineEvents.length
    totalStaleEvents := staleEvents.length
    longestOutageMs := longestOutageMs
    avgOutageMs := avgOutageMs
    totalBuckets := totalBuckets
    onlineBuckets := onlineBuckets }

-- ─── Monitor state and message decoding ───

/-- The `data.data` object of a decoded message; every field optional. -/
structure MsgData where
  name : Option String
  battery : Option ℚ
  depth : Option ℚ
  waterDepth : Option ℚ
  level : Option ℚ
  unit : Option String
  temperature : Option ℚ
  devTemperature : Option ℚ
  percent : Option ℚ
  dtype : Option String
  isOnline : Option Bool
  deriving DecidableEq, Repr

/-- The empty object `{}` substituted for a missing `data.data`. -/
def emptyMsgData : MsgData :=
  { name := none, battery := none, depth := none, waterDepth := none,
    level := none, unit := none, temperature := none, devTemperature := none,
    percent := none, dtype := none, isOnline := none }

/-- Result of `JSON.parse` on the payload: a decode failure (the `catch`
branch of `processMessage`) or a parsed message with its top-level `event`
string and optional `data` object. -/
inductive Payload
  | malformed
  | parsed (eventField : Option String) (dataField : Option MsgData)
  deriving DecidableEq, Repr

/-- One entry of the `sensorLastSeen` map
(`{ timestamp, name, data }`, `yolink-mqtt.js` lines 354-358). -/
structure SeenInfo where
  timestamp : Nat
  name : String
  data : MsgData
  deriving DecidableEq, Repr

/-- A record of `tank-readings.json` (the diagnostic `raw` copy of the message
is not modelled).  `statusChangedAt` is set only by the sweep. -/
structure Reading where
  deviceId : DeviceId
  name : String
  capacity : Option ℚ
  timestamp : Nat
  status : String
  statusChangedAt : Option Nat
  level : Option ℚ
  levelUnit : Option String
  battery : Option ℚ
  temperature : Option ℚ
  percentage : Option ℚ
  deriving DecidableEq, Repr

/-- The full mutable state of the monitor: the two in-memory maps plus the
three persisted snapshots. -/
structure MonitorState where
  sensorLastSeen : DeviceId → Option SeenInfo
  sensorStatus : DeviceId → Option Status
  eventLog : EventLog
  timeline : DeviceId → List (Nat × String)
  readings : DeviceId → Option Reading

/-- `TANK_DEVICES` (`yolink-mqtt.js` lines 56-59): id → (name, capacity). -/
def TANK_DEVICES (d : DeviceId) : Option (String × ℚ) :=
  if d = "d88b4c010009063b" then some ("Tank 2 - Distribution", 6000)
  else if d = "d88b4c01000bf5ee" then some ("Tank 3 - Distribution", 5000)
  else none

/-- Drop a falsy (absent or empty) string, for JS `||` chains over strings. -/
def strFalsy : Option String → Option String
  | some s => if s = "" then none else some s
  | none => none

/-- `a.isPrefixOf`-style check on character lists. -/
def leadsList : List Char → List Char → Bool
  | [], _ => true
  | _ :: _, [] => false
  | a :: as, b :: bs => a = b && leadsList as bs

/-- Substring occurrence check on character lists. -/
def containsSub (pat : List Char) : List Char → Bool
  | [] => pat.isEmpty
  | b :: bs => leadsList pat (b :: bs) || containsSub pat bs

/-- JS `s.includes(pat)`. -/
def strIncludes (s pat : String) : Bool :=
  containsSub pat.toList s.toList

/-- Split a character list at every occurrence of `sep`
(JS `String.prototype.split` with a one-character separator). -/
def splitOnChar (sep : Char) : List Char → List (List Char)
  | [] => [[]]
  | c :: cs =>
    let r := splitOnChar sep cs
    if c = sep then [] :: r
    else
      match r with
      | [] => [[c]]
      | h :: t => (c :: h) :: t

/-- JS `topic.split('/')` as a list of strings. -/
def jsSplit (s : String) (sep : Char) : List String :=
  (splitOnChar sep s.toList).map List.asString

/-- The reading object built by `processMessage` for tank messages
(`yolink-mqtt.js` lines 386-422). -/
def buildReading (deviceId : DeviceId) (deviceName : String)
    (knownDevice : Option (String × ℚ)) (sd : MsgData) (now : Nat) : Reading :=
  let base : Reading :=
    { deviceId := deviceId, name := deviceName,
      capacity := knownDevice.map (fun p => p.2),
      timestamp := now, status := "online", statusChangedAt := none,
      level := none, levelUnit := none, battery := none,
      temperature := none, percentage := none }
  let r1 :=
    if sd.waterDepth.isSome then
      { base with level := sd.waterDepth.map (fun v => v / 10), levelUnit := some "cm" }
    else if sd.depth.isSome then
      { base with level := sd.depth, levelUnit := some "cm" }
    else if sd.level.isSome then
      { base with level := sd.level, levelUnit := some ((strFalsy sd.unit).getD "cm") }
    else base
  let r2 :=
    if sd.battery.isSome then { r1 with battery := sd.battery.map (fun v => v * 25) }
    else r1
  let r3 :=
    if sd.devTemperature.isSome then { r2 with temperature := sd.devTemperature }
    else if sd.temperature.isSome then { r2 with temperature := sd.temperature }
    else r2
  if sd.percent.isSome then { r3 with percentage := sd.percent } else r3

/-- `processMessage` (`yolink-mqtt.js` lines 334-445) as a state
transformer.  `now` is `Date.now()` at the time of the call.  Returns the
new state and the list of events the call logged (in logging order). -/
def processMessage (st : MonitorState) (topic : String) (payload : Payload)
    (now : Nat) : MonitorState × List Event :=
  match payload with
  | Payload.malformed => (st, [])
  | Payload.parsed eventField dataField =>
    match (jsSplit topic '/').get? 2 with
    | none => (st, [])
    | some deviceId =>
      if deviceId = "" then (st, [])
      else
        let knownDevice := TANK_DEVICES deviceId
        let sd := dataField.getD emptyMsgData
        let deviceName :=
          ((strFalsy (knownDevice.map (fun p => p.1))).or
            ((strFalsy (dataField.bind (fun d => d.name))).or
              (strFalsy ((st.sensorLastSeen deviceId).map (fun i => i.name))))).getD
            deviceId
        let deviceEvent := eventField.getD ""
        let previousStatus := st.sensorStatus deviceId
        let wasDown := previousStatus = some Status.offline ∨
          previousStatus = some Status.stale
        let isFirstMessage := (st.sensorLastSeen deviceId).isNone
        let lastSeen' := updMap st.sensorLastSeen deviceId
          { timestamp := now, name := deviceName, data := sd }
        let status' := updMap st.sensorStatus deviceId Status.online
        let timeline' := updateTimeline st.timeline deviceId "online" now
        let step1 :=
          if wasDown then
            let r := logEvent st.eventLog EventType.online (some deviceId)
              (some deviceName) now
            (r.1, [r.2])
          else if isFirstMessage then
            let r := logEvent st.eventLog EventType.startup (some deviceId)
              (some deviceName) now
            (r.1, [r.2])
          else (st.eventLog, [])
        let isTank := knownDevice.isSome ||
          strIncludes deviceEvent "WaterDepthSensor" ||
          sd.depth.isSome || sd.waterDepth.isSome
        let readings' :=
          if isTank then
            updMap st.readings deviceId (buildReading deviceId deviceName knownDevice sd now)
          else st.readings
        let isHub := strIncludes deviceEvent "Hub" || sd.dtype = some "Hub"
        let hubOnline := sd.isOnline ≠ some false
        let step2 :=
          if isHub ∧ ¬ hubOnline then
            let r := logEvent step1.1 EventType.hub_offline (some deviceId)
              (some deviceName) now
            (r.1, step1.2 ++ [r.2])
          else step1
        ({ sensorLastSeen := lastSeen', sensorStatus := status',
           eventLog := step2.1, timeline := timeline', readings := readings' },
         step2.2)

-- ─── Offline sweep (`checkForOfflineSensors`, `yolink-mqtt.js` 268-330) ───

/-- `sensorStatus[deviceId] || 'unknown'` as a timeline label. -/
def statusLabel : Option Status → String
  | some Status.online => "online"
  | some Status.stale => "stale"
  | some Status.offline => "offline"
  | none => "unknown"

/-- The sweep's update of `tank-readings.json` on a transition
(`yolink-mqtt.js` lines 301-306 and 319-324): only if a reading exists. -/
def setReadingStatus (readings : DeviceId → Option Reading) (deviceId : DeviceId)
    (status : String) (now : Nat) : DeviceId → Option Reading :=
  match readings deviceId with
  | none => readings
  | some r => updMap readings deviceId
      { r with status := status, statusChangedAt := some now }

/-- The body of the per-device loop of `checkForOfflineSensors`
(`yolink-mqtt.js` lines 271-329): offline check first, stale check only in
the `else if`, then the timeline bucket write with the (possibly updated)
status.  Returns the new state and the events logged for this device. -/
def sweepDevice (st : MonitorState) (deviceId : DeviceId) (info : SeenInfo)
    (now : Nat) : MonitorState × List Event :=
  let silence := now - info.timestamp
  let currentStatus := st.sensorStatus deviceId
  let step :=
    if silence > OFFLINE_THRESHOLD_MS ∧ currentStatus ≠ some Status.offline then
      let r := logEvent st.eventLog EventType.offline (some deviceId)
        (some ((strFalsy (some info.name)).getD deviceId)) now
      ({ st with sensorStatus := updMap st.sensorStatus deviceId Status.offline,
                 eventLog := r.1,
                 readings := setReadingStatus st.readings deviceId "offline" now },
       [r.2])
    else if silence > STALE_THRESHOLD_MS ∧ currentStatus = some Status.online then
      let r := logEvent st.eventLog EventType.stale (some deviceId)
        (some ((strFalsy (some info.name)).getD deviceId)) now
      ({ st with sensorStatus := updMap st.sensorStatus deviceId Status.stale,
                 eventLog := r.1,
                 readings := setReadingStatus st.readings deviceId "stale" now },
       [r.2])
    else (st, [])
  let st1 := step.1
  let tl1 := updateTimeline st1.timeline deviceId (statusLabel (st1.sensorStatus deviceId)) now
  ({ st1 with timeline := tl1 }, step.2)

/-- `checkForOfflineSensors`: iterate the entries of `sensorLastSeen` in
enumeration order (`devices` is the key list of `Object.entries`; keys not
present in the map contribute nothing), applying `sweepDevice` to each. -/
def checkForOfflineSensors (st : MonitorState) (devices : List DeviceId)
    (now : Nat) : MonitorState × List Event :=
  match devices with
  | [] => (st, [])
  | d :: rest =>
    match st.sensorLastSeen d with
    | none => checkForOfflineSensors st rest now
    | some info =>
      let r := sweepDevice st d info now
      let r' := checkForOfflineSensors r.1 rest now
      (r'.1, r.2 ++ r'.2)

-- ─── Shared sample values for concrete witnesses ───

/-- A sample system event. -/
def sampleEvent : Event :=
  { timestamp := 0, type := EventType.system, deviceId := none,
    deviceName := none, offlineDurationMs := none }

/-- A second, distinct sample event. -/
def sampleEvent2 : Event :=
  { timestamp := 1, type := EventType.system, deviceId := none,
    deviceName := none, offlineDurationMs := none }

/-- A sample last-seen record with timestamp 0. -/
def sampleInfo : SeenInfo :=
  { timestamp := 0, name := "Tank 2 - Distribution", data := emptyMsgData }

/-- The all-empty monitor state (module start-up). -/
def emptyMonitorState : MonitorState :=
  { sensorLastSeen := fun _ => none
    sensorStatus := fun _ => none
    eventLog := { events := [], sensors := fun _ => none }
    timeline := fun _ => []
    readings := fun _ => none }

-- ─── C4: the event log is bounded and trimmed FIFO ───

set_option maxRecDepth 4000 in
/-- **C4.** After `saveEventLog` runs (which `logEvent` does on every
append), the persisted event list has at most `MAX_EVENT_LOG_SIZE = 500`
entries; the stored list is always a suffix of the list handed to it (FIFO
trim, oldest dropped first, not sampling); and pushing a 501st event makes
the persisted list drop exactly the first event. -/
theorem saveEventLog_bounded_fifo :
    (∀ log : EventLog, (saveEventLog log).events.length ≤ MAX_EVENT_LOG_SIZE)
    ∧ (∀ log : EventLog, (saveEventLog log).events.IsSuffix log.events)
    ∧ (∀ (l : List Event) (e : Event) (s : DeviceId → Option SensorSummary),
        l.length = MAX_EVENT_LOG_SIZE →
        (saveEventLog { events := l ++ [e], sensors := s }).events = l.tail ++ [e]) := by
  refine ⟨fun log => ?_, fun log => ?_, fun l e s hl => ?_⟩
  · unfold saveEventLog
    split
    · next h =>
      simp only [List.length_drop]
      simp only [MAX_EVENT_LOG_SIZE] at h ⊢
      omega
    · next h =>
      simp only [MAX_EVENT_LOG_SIZE] at h ⊢
      omega
  · unfold saveEventLog
    split
    · exact List.drop_suffix _ _
    · exact List.suffix_refl _
  · simp only [MAX_EVENT_LOG_SIZE] at hl
    unfold saveEventLog
    split
    · next h =>
      simp only [List.length_append, List.length_singleton, hl]
      have h1 : 500 + 1 - MAX_EVENT_LOG_SIZE = 1 := by
        simp [MAX_EVENT_LOG_SIZE]
      rw [h1, List.drop_append_of_le_length (by omega), List.drop_one]
    · next h =>
      exfalso
      simp only [List.length_append, List.length_singleton, hl, MAX_EVENT_LOG_SIZE] at h
      omega

/-- Witness for C4: appending a 501st event to a full log of 500 events
drops exactly the first one. -/
theorem saveEventLog_bounded_fifo_witness :
    (saveEventLog { events := List.replicate MAX_EVENT_LOG_SIZE sampleEvent ++ [sampleEvent2],
                    sensors := fun _ => none }).events
      = (List.replicate MAX_EVENT_LOG_SIZE sampleEvent).tail ++ [sampleEvent2] :=
  saveEventLog_bounded_fifo.2.2 _ _ _ (by simp)

-- ─── C8: a malformed payload changes nothing ───

/-- **C8.** On a payload that fails to decode, `processMessage` leaves all
liveness state unchanged — last-seen map, status map, event log, timeline
and readings snapshot are identical — and no event is emitted. -/
theorem processMessage_malformed_noop :
    ∀ (st : MonitorState) (topic : String) (now : Nat),
      (processMessage st topic Payload.malformed now).1.sensorLastSeen = st.sensorLastSeen
      ∧ (processMessage st topic Payload.malformed now).1.sensorStatus = st.sensorStatus
      ∧ (processMessage st topic Payload.malformed now).1.eventLog = st.eventLog
      ∧ (processMessage st topic Payload.malformed now).1.timeline = st.timeline
      ∧ (processMessage st topic Payload.malformed now).1.readings = st.readings
      ∧ (processMessage st topic Payload.malformed now).2 = [] :=
  fun _ _ _ => ⟨rfl, rfl, rfl, rfl, rfl, rfl⟩

-- ─── C5: timeline write and retention pruning ───

/-- Every entry of `upsertBucket l k s` whose key is `k` is `(k, s)`. -/
theorem upsertBucket_key_eq (l : List (Nat × String)) (k : Nat) (s : String) :
    ∀ p ∈ upsertBucket l k s, p.1 = k → p = (k, s) := by
  intro p hp hk
  unfold upsertBucket at hp
  split at hp
  · rcases List.mem_map.mp hp with ⟨q, _, hq⟩
    by_cases hqk : q.1 = k
    · simpa [hqk] using hq.symm
    · rw [if_neg hqk] at hq
      exact absurd (hq ▸ hk) hqk
  · next hnone =>
    rcases List.mem_append.mp hp with h | h
    · exact absurd (List.any_eq_true.mpr ⟨p, h, by simp [hk]⟩) hnone
    · simpa using h

/-- `upsertBucket l k s` always contains an entry with key `k`. -/
theorem upsertBucket_key_mem (l : List (Nat × String)) (k : Nat) (s : String) :
    ∃ p ∈ upsertBucket l k s, p.1 = k := by
  unfold upsertBucket
  split
  · next hsome =>
    rcases List.any_eq_true.mp hsome with ⟨q, hq, hqk⟩
    refine ⟨(k, s), List.mem_map.mpr ⟨q, hq, ?_⟩, rfl⟩
    simp only [decide_eq_true_eq] at hqk
    rw [if_pos hqk]
  · exact ⟨(k, s), List.mem_append.mpr (Or.inr (by simp)), rfl⟩

/-- The hour floor is within an hour of its argument. -/
theorem getHourBucketKey_close (t : Nat) : t ≤ getHourBucketKey t + RETENTION_MS := by
  unfold getHourBucketKey RETENTION_MS
  have h := Nat.div_add_mod t 3600000
  have h2 : t % 3600000 < 3600000 := Nat.mod_lt _ (by omega)
  omega

/-- **C5.** `updateTimeline` writes `status` into the bucket keyed by the
hour floor of the write time, overwriting any existing value for that
bucket (last write wins within an hour); and immediately afterwards the
device's timeline contains no bucket whose key is older than `now` minus
the 7-day retention window (`key < now − RETENTION_MS`, rendered as
`¬ (now ≤ key + RETENTION_MS)`). -/
theorem updateTimeline_write_prune (tl : DeviceId → List (Nat × String))
    (deviceId : DeviceId) (status : String) (now : Nat) :
    bucketLookup ((updateTimeline tl deviceId status now) deviceId)
        (getHourBucketKey now) = some status
    ∧ ∀ p ∈ (updateTimeline tl deviceId status now) deviceId,
        now ≤ p.1 + RETENTION_MS := by
  have happ : (updateTimeline tl deviceId status now) deviceId
      = (upsertBucket (tl deviceId) (getHourBucketKey now) status).filter
          (fun p => decide (now ≤ p.1 + RETENTION_MS)) := by
    unfold updateTimeline
    simp
  constructor
  · rw [happ]
    unfold bucketLookup
    -- the freshly written bucket survives the prune
    rcases upsertBucket_key_mem (tl deviceId) (getHourBucketKey now) status with ⟨p, hp, hpk⟩
    have hpv : p = (getHourBucketKey now, status) :=
      upsertBucket_key_eq _ _ _ p hp hpk
    have hmem : p ∈ (upsertBucket (tl deviceId) (getHourBucketKey now) status).filter
        (fun p => decide (now ≤ p.1 + RETENTION_MS)) := by
      refine List.mem_filter.mpr ⟨hp, ?_⟩
      simp only [hpk, decide_eq_true_eq]
      exact getHourBucketKey_close now
    -- find? is some, and any found entry with this key carries `status`
    have hsome : (((upsertBucket (tl deviceId) (getHourBucketKey now) status).filter
        (fun p => decide (now ≤ p.1 + RETENTION_MS))).find?
          (fun q => decide (q.1 = getHourBucketKey now))).isSome := by
      rw [List.find?_isSome]
      exact ⟨p, hmem, by simp [hpk]⟩
    rcases Option.isSome_iff_exists.mp hsome with ⟨q, hq⟩
    have hql := List.find?_some hq
    have hqm := List.mem_of_find?_eq_some hq
    have hqm' := (List.mem_filter.mp hqm).1
    simp only [decide_eq_true_eq] at hql
    have hqv : q = (getHourBucketKey now, status) :=
      upsertBucket_key_eq _ _ _ q hqm' hql
    rw [hq, hqv]
    rfl
  · intro p hp
    rw [happ] at hp
    have := (List.mem_filter.mp hp).2
    simpa using this

/-- Witness for C5 at a concrete input: recording `"online"` at time
`RETENTION_MS + 7200000` writes this hour's bucket and evicts a bucket
recorded at time 0. -/
theorem updateTimeline_write_prune_witness :
    bucketLookup ((updateTimeline (fun _ => [(0, "stale")]) "d" "online"
        (RETENTION_MS + 7200000)) "d")
        (getHourBucketKey (RETENTION_MS + 7200000)) = some "online"
    ∧ (0, "stale") ∉ (updateTimeline (fun _ => [(0, "stale")]) "d" "online"
        (RETENTION_MS + 7200000)) "d" := by
  refine ⟨(updateTimeline_write_prune (fun _ => [(0, "stale")]) "d" "online"
    (RETENTION_MS + 7200000)).1, fun hmem => ?_⟩
  have := (updateTimeline_write_prune (fun _ => [(0, "stale")]) "d" "online"
    (RETENTION_MS + 7200000)).2 (0, "stale") hmem
  simp only [RETENTION_MS] at this
  omega

-- ─── C6: uptime statistics ───

/-- **C6.** `calculateStats` reports the bucket count, the online-bucket
count, and `uptimePercent = round(online / total * 1000) / 10` — a
percentage with one decimal place — and `null` uptime when the device has
zero buckets. -/
theorem calculateStats_uptime (timeline : List (Nat × String))
    (events : List Event) (deviceId : DeviceId) :
    (calculateStats timeline events deviceId).totalBuckets = timeline.length
    ∧ (calculateStats timeline events deviceId).onlineBuckets
        = (timeline.filter (fun p => decide (p.2 = "online"))).length
    ∧ (timeline.length = 0 →
        (calculateStats timeline events deviceId).uptimePercent = none)
    ∧ (0 < timeline.length →
        (calculateStats timeline events deviceId).uptimePercent
          = some (((round
              (((timeline.filter (fun p => decide (p.2 = "online"))).length : ℚ)
                / (timeline.length : ℚ) * 1000) : ℤ) : ℚ) / 10)
        ∧ ∃ n : ℤ, (calculateStats timeline events deviceId).uptimePercent
            = some ((n : ℚ) / 10)) := by
  refine ⟨rfl, rfl, fun h0 => ?_, fun hpos => ?_⟩
  · unfold calculateStats
    simp [h0]
  · constructor
    · unfold calculateStats
      simp [hpos]
    · refine ⟨round (((timeline.filter (fun p => decide (p.2 = "online"))).length : ℚ)
        / (timeline.length : ℚ) * 1000), ?_⟩
      unfold calculateStats
      simp [hpos]

/-- Witness for C6: a device with one `online` bucket and one `offline`
bucket has a one-decimal uptime percentage. -/
theorem calculateStats_uptime_witness :
    ∃ n : ℤ, (calculateStats [(0, "online"), (3600000, "offline")] []
      "d88b4c010009063b").uptimePercent = some ((n : ℚ) / 10) :=
  ((calculateStats_uptime [(0, "online"), (3600000, "offline")] []
    "d88b4c010009063b").2.2.2 (by simp)).2

-- ─── C7: token cache contract ───

/-- Counterexample to C7 as stated: when the provider reports
`expires_in = 0`, the code caches `tokenExpiry = now + 7200·1000` (the JS
`data.expires_in || 7200` treats `0` as absent), not
`now + (reported expires_in)·1000 = now + 0`. -/
theorem getAccessToken_reported_ttl_counterexample :
    (getAccessToken { accessToken := none, tokenExpiry := 0 } 0
        { access_token := some "tok", expires_in := some 0 }).1
      ≠ Except.ok ("tok", { accessToken := some "tok", tokenExpiry := 0 + 0 * 1000 }) := by
  intro h
  simp [getAccessToken, strTruthy] at h

/-- **C7 (amended).** `getAccessToken` returns the cached token without a
network exchange iff a (truthy) token is cached and
`now < tokenExpiry − 300000` (the 5-minute margin); otherwise it performs
the exchange and, when the response carries a usable token, caches it with
`tokenExpiry = now + ttl·1000` where `ttl` is the reported `expires_in`
when nonzero and 7200 otherwise (the default also covers a reported `0`,
which the code treats as absent); if the exchange yields no usable token it
fails with an error rather than returning a value. -/
theorem getAccessToken_contract (st : TokenState) (now : Nat) (resp : TokenResponse) :
    ((getAccessToken st now resp).2 = false ↔
      (strTruthy st.accessToken = true ∧ now + 300000 < st.tokenExpiry))
    ∧ ((strTruthy st.accessToken = true ∧ now + 300000 < st.tokenExpiry) →
        (getAccessToken st now resp).1 = Except.ok (st.accessToken.getD "", st))
    ∧ (¬ (strTruthy st.accessToken = true ∧ now + 300000 < st.tokenExpiry) →
        (strTruthy resp.access_token = true →
          (getAccessToken st now resp).1
            = Except.ok (resp.access_token.getD "",
                { accessToken := some (resp.access_token.getD "")
                  tokenExpiry := now + (match resp.expires_in with
                    | some n => if n = 0 then 7200 else n
                    | none => 7200) * 1000 }))
        ∧ (strTruthy resp.access_token = false →
            ∃ msg, (getAccessToken st now resp).1 = Except.error msg)) := by
  by_cases hc : strTruthy st.accessToken = true ∧ now + 300000 < st.tokenExpiry
  · refine ⟨?_, fun _ => ?_, fun hn => absurd hc hn⟩
    · unfold getAccessToken
      rw [if_pos hc]
      simp [hc]
    · unfold getAccessToken
      rw [if_pos hc]
  · refine ⟨?_, fun h => absurd h hc, fun _ => ⟨fun ht => ?_, fun hf => ?_⟩⟩
    · unfold getAccessToken
      rw [if_neg hc]
      constructor
      · intro hfalse
        split at hfalse <;> simp_all
      · intro h
        exact absurd h hc
    · unfold getAccessToken
      rw [if_neg hc, if_pos ht]
    · unfold getAccessToken
      rw [if_neg hc, if_neg (by simp [hf])]
      exact ⟨_, rfl⟩

/-- Witness for C7: a cached, unexpired token is returned with no exchange;
an exchange with no usable token fails. -/
theorem getAccessToken_contract_witness :
    (getAccessToken { accessToken := some "tok", tokenExpiry := 1000000000 } 0
        { access_token := none, expires_in := none }).1
      = Except.ok ("tok", { accessToken := some "tok", tokenExpiry := 1000000000 })
    ∧ ∃ msg, (getAccessToken { accessToken := none, tokenExpiry := 0 } 0
        { access_token := none, expires_in := none }).1 = Except.error msg :=
  ⟨(getAccessToken_contract { accessToken := some "tok", tokenExpiry := 1000000000 } 0
      { access_token := none, expires_in := none }).2.1 ⟨by decide, by decide⟩,
   ((getAccessToken_contract { accessToken := none, tokenExpiry := 0 } 0
      { access_token := none, expires_in := none }).2.2
        (by simp [strTruthy])).2 (by simp [strTruthy])⟩

-- ─── C1: outage duration on `online` events ───

/-- `saveEventLog` never drops the just-appended (newest) event. -/
theorem saveEventLog_last (l : List Event) (ev : Event)
    (s : DeviceId → Option SensorSummary) :
    ∃ pre, (saveEventLog { events := l ++ [ev], sensors := s }).events = pre ++ [ev] := by
  unfold saveEventLog
  split
  · next h =>
    simp only [List.length_append, List.length_singleton] at h ⊢
    refine ⟨l.drop (l.length + 1 - MAX_EVENT_LOG_SIZE), ?_⟩
    have hle : l.length + 1 - MAX_EVENT_LOG_SIZE ≤ l.length := by
      simp only [MAX_EVENT_LOG_SIZE] at *
      omega
    rw [List.drop_append_of_le_length hle]
  · exact ⟨l, rfl⟩

/-- The event object returned by `logEvent` carries the requested type. -/
theorem logEvent_snd_type (log : EventLog) (ty : EventType)
    (dev : Option DeviceId) (name : Option String) (now : Nat) :
    (logEvent log ty dev name now).2.type = ty := by
  unfold logEvent
  split
  · cases ty <;> rfl
  · rfl

/-- The summary whose `lastOfflineAt` (1000) predates its `lastStaleAt`
(2000): reachable by offline → online → stale, since recovery never clears
`lastOfflineAt`. -/
def c1Summary : SensorSummary :=
  { name := some "Tank", firstSeen := 0, totalOfflineEvents := 1,
    totalStaleEvents := 1, lastOfflineAt := some 1000, lastStaleAt := some 2000,
    lastOnlineAt := some 1500, lastReading := none, currentStatus := "stale" }

/-- An event log holding `c1Summary` for device `dev1`. -/
def c1Log : EventLog :=
  { events := [], sensors := fun d => if d = "dev1" then some c1Summary else none }

/-- Counterexample to C1 as stated: with `lastOfflineAt = 1000` and
`lastStaleAt = 2000`, the `online` event logged at 5000 carries
`offlineDurationMs = 5000 − 1000 = 4000` (the code computes
`lastOfflineAt || lastStaleAt`), not
`5000 − max(lastOfflineAt, lastStaleAt) = 3000`. -/
theorem logEvent_online_duration_counterexample :
    ((logEvent c1Log EventType.online (some "dev1") (some "Tank") 5000).2).offlineDurationMs
      ≠ some ((5000 : Int) - (max 1000 2000 : Int)) := by
  decide

/-- **C1 (amended).** For every `online` event appended by `logEvent` for a
device with an existing summary, the attached `offlineDurationMs` equals
`event.timestamp − lastOfflineAt` when `lastOfflineAt` is set, else
`event.timestamp − lastStaleAt` when only `lastStaleAt` is set (the code
prefers the last `offline` transition over a more recent `stale` one); if
neither is set, no duration field is attached.  The event carrying this
duration is the one appended at the tail of the persisted log. -/
theorem logEvent_online_duration (log : EventLog) (d : DeviceId)
    (name : Option String) (now : Nat) (s : SensorSummary)
    (hs : log.sensors d = some s) (hd : d ≠ "") :
    ((logEvent log EventType.online (some d) name now).2).offlineDurationMs
      = (match s.lastOfflineAt, s.lastStaleAt with
         | some o, _ => some ((now : Int) - (o : Int))
         | none, some t => some ((now : Int) - (t : Int))
         | none, none => none)
    ∧ ((logEvent log EventType.online (some d) name now).2).type = EventType.online
    ∧ ∃ pre, ((logEvent log EventType.online (some d) name now).1).events
        = pre ++ [(logEvent log EventType.online (some d) name now).2] := by
  have htruthy : idTruthy (some d) = true := by simp [idTruthy, hd]
  refine ⟨?_, logEvent_snd_type _ _ _ _ _, ?_⟩
  · unfold logEvent
    simp only [htruthy, if_true, hs, Option.getD_some]
    cases s.lastOfflineAt <;> cases s.lastStaleAt <;> simp [Option.or]
  · unfold logEvent
    simp only [htruthy, if_true, hs, Option.getD_some]
    exact saveEventLog_last _ _ _

/-- A summary whose only down-transition is a `stale` at 2000. -/
def c1StaleOnlySummary : SensorSummary :=
  { name := some "Tank", firstSeen := 0, totalOfflineEvents := 0,
    totalStaleEvents := 1, lastOfflineAt := none, lastStaleAt := some 2000,
    lastOnlineAt := none, lastReading := none, currentStatus := "stale" }

/-- An event log holding `c1StaleOnlySummary` for device `dev1`. -/
def c1StaleOnlyLog : EventLog :=
  { events := [], sensors := fun d => if d = "dev1" then some c1StaleOnlySummary else none }

/-- Witness for C1 (amended): a device whose only down-transition was a
`stale` at 2000 gets `offlineDurationMs = 5000 − 2000` on recovery. -/
theorem logEvent_online_duration_witness :
    ((logEvent c1StaleOnlyLog EventType.online (some "dev1") (some "Tank")
        5000).2).offlineDurationMs = some ((5000 : Int) - (2000 : Int)) :=
  (logEvent_online_duration c1StaleOnlyLog "dev1" (some "Tank") 5000
    c1StaleOnlySummary rfl (by decide)).1

-- ─── C2 and C9: sweep transition edges ───

/-- The sweep body never touches the `sensorLastSeen` map. -/
theorem sweepDevice_lastSeen (st : MonitorState) (d : DeviceId)
    (info : SeenInfo) (now : Nat) :
    (sweepDevice st d info now).1.sensorLastSeen = st.sensorLastSeen := by
  simp only [sweepDevice]
  split
  · rfl
  · split <;> rfl

/-- The sweep body changes the status only of its own device. -/
theorem sweepDevice_status_other (st : MonitorState) (d : DeviceId)
    (info : SeenInfo) (now : Nat) (d' : DeviceId) (h : d' ≠ d) :
    (sweepDevice st d info now).1.sensorStatus d' = st.sensorStatus d' := by
  simp only [sweepDevice]
  split
  · simp [updMap, h]
  · split
    · simp [updMap, h]
    · rfl

/-- **C2.** In one sweep pass, a device silent longer than the offline
threshold whose state is not already `offline` is transitioned to
`offline` and gets exactly one `offline` event — never a `stale`
classification in the same pass: the offline condition is evaluated before
the stale condition. -/
theorem sweepDevice_offline_priority (st : MonitorState) (d : DeviceId)
    (info : SeenInfo) (now : Nat)
    (hsil : now - info.timestamp > OFFLINE_THRESHOLD_MS)
    (hst : st.sensorStatus d ≠ some Status.offline) :
    (sweepDevice st d info now).1.sensorStatus d = some Status.offline
    ∧ (sweepDevice st d info now).2.map Event.type = [EventType.offline] := by
  simp only [sweepDevice]
  rw [if_pos ⟨hsil, hst⟩]
  exact ⟨by simp [updMap], by simp [logEvent_snd_type]⟩

/-- Witness for C2: a device 3 hours silent (thresholds: stale 30 m,
offline 2 h), currently unclassified, goes straight to `offline`. -/
theorem sweepDevice_offline_priority_witness :
    (sweepDevice emptyMonitorState "d88b4c010009063b" sampleInfo
        (3 * 60 * 60 * 1000)).1.sensorStatus "d88b4c010009063b" = some Status.offline
    ∧ (sweepDevice emptyMonitorState "d88b4c010009063b" sampleInfo
        (3 * 60 * 60 * 1000)).2.map Event.type = [EventType.offline] :=
  sweepDevice_offline_priority emptyMonitorState "d88b4c010009063b" sampleInfo
    (3 * 60 * 60 * 1000) (by decide) (by simp [emptyMonitorState])

/-- **C9.** In any sweep pass, a `stale` event is emitted for a device only
when its current state is `online` (a device already `stale` is not
re-evented), and re-detecting `offline` for a device already `offline`
emits no event and leaves the status map unchanged. -/
theorem sweepDevice_edges (st : MonitorState) (d : DeviceId)
    (info : SeenInfo) (now : Nat) :
    (EventType.stale ∈ (sweepDevice st d info now).2.map Event.type →
      st.sensorStatus d = some Status.online)
    ∧ (st.sensorStatus d = some Status.offline →
        (sweepDevice st d info now).1.sensorStatus = st.sensorStatus
        ∧ (sweepDevice st d info now).2 = []) := by
  constructor
  · intro hmem
    simp only [sweepDevice] at hmem
    split at hmem
    · simp [logEvent_snd_type] at hmem
    · split at hmem
      · next h => exact h.2
      · simp at hmem
  · intro hoff
    have h1 : ¬ (now - info.timestamp > OFFLINE_THRESHOLD_MS
        ∧ st.sensorStatus d ≠ some Status.offline) := by
      rintro ⟨_, hne⟩
      exact hne hoff
    have h2 : ¬ (now - info.timestamp > STALE_THRESHOLD_MS
        ∧ st.sensorStatus d = some Status.online) := by
      rintro ⟨_, he⟩
      rw [hoff] at he
      cases he
    simp only [sweepDevice]
    rw [if_neg h1, if_neg h2]
    exact ⟨rfl, rfl⟩

/-- A state in which `dev1` was last seen at time 0 and is already
classified `offline`. -/
def c9OfflineState : MonitorState :=
  { sensorLastSeen := fun d => if d = "dev1" then some sampleInfo else none
    sensorStatus := fun d => if d = "dev1" then some Status.offline else none
    eventLog := { events := [], sensors := fun _ => none }
    timeline := fun _ => []
    readings := fun _ => none }

/-- Witness for C9: a device already `offline` and still silent after 3
hours is a no-op for the status map and emits nothing. -/
theorem sweepDevice_edges_witness :
    (sweepDevice c9OfflineState "dev1" sampleInfo
        (3 * 60 * 60 * 1000)).1.sensorStatus = c9OfflineState.sensorStatus
    ∧ (sweepDevice c9OfflineState "dev1" sampleInfo (3 * 60 * 60 * 1000)).2 = [] :=
  (sweepDevice_edges c9OfflineState "dev1" sampleInfo (3 * 60 * 60 * 1000)).2
    (by simp [c9OfflineState])

-- ─── C3: message arrival ───

/-- **C3.** On message arrival for device `d` (extracted from the topic and
nonempty), the last-seen timestamp becomes `now` and the state `online`;
if the prior state was `offline` or `stale`, exactly one `online` event
and no `startup` event is emitted; if the device was never seen (and hence
unclassified), exactly one `startup` event and no `online` event is
emitted; if the device was already `online` (and had been seen), no
state-transition event is emitted at all. -/
theorem processMessage_transitions (st : MonitorState) (topic : String)
    (ef : Option String) (df : Option MsgData) (now : Nat) (d : DeviceId)
    (hd : (jsSplit topic '/').get? 2 = some d) (hne : d ≠ "") :
    (((processMessage st topic (Payload.parsed ef df) now).1.sensorLastSeen d).map
        SeenInfo.timestamp = some now)
    ∧ (processMessage st topic (Payload.parsed ef df) now).1.sensorStatus d
        = some Status.online
    ∧ ((st.sensorStatus d = some Status.offline ∨ st.sensorStatus d = some Status.stale) →
        ((processMessage st topic (Payload.parsed ef df) now).2.filter
            (fun e => decide (e.type = EventType.online))).length = 1
        ∧ ((processMessage st topic (Payload.parsed ef df) now).2.filter
            (fun e => decide (e.type = EventType.startup))).length = 0)
    ∧ (st.sensorLastSeen d = none → st.sensorStatus d = none →
        ((processMessage st topic (Payload.parsed ef df) now).2.filter
            (fun e => decide (e.type = EventType.startup))).length = 1
        ∧ ((processMessage st topic (Payload.parsed ef df) now).2.filter
            (fun e => decide (e.type = EventType.online))).length = 0)
    ∧ (st.sensorStatus d = some Status.online → st.sensorLastSeen d ≠ none →
        (processMessage st topic (Payload.parsed ef df) now).2.filter
          (fun e => decide (e.type = EventType.online ∨ e.type = EventType.startup
            ∨ e.type = EventType.stale ∨ e.type = EventType.offline)) = []) := by
  simp only [processMessage, hd]
  rw [if_neg hne]
  refine ⟨?_, ?_, ?_, ?_, ?_⟩
  · simp [updMap]
  · simp [updMap]
  · intro hw
    rw [if_pos hw]
    split <;> simp [logEvent_snd_type]
  · intro h1 h2
    have hw : ¬ (st.sensorStatus d = some Status.offline
        ∨ st.sensorStatus d = some Status.stale) := by
      simp [h2]
    rw [if_neg hw]
    simp only [h1, Option.isNone_none]
    split <;> simp [logEvent_snd_type]
  · intro h1 h2
    have hw : ¬ (st.sensorStatus d = some Status.offline
        ∨ st.sensorStatus d = some Status.stale) := by
      simp [h1]
    rw [if_neg hw]
    obtain ⟨v, hv⟩ := Option.ne_none_iff_exists'.mp h2
    simp only [hv, Option.isNone_some]
    split <;> simp [logEvent_snd_type]

/-- A state in which `dev1` was last seen at 0 and is currently `stale`. -/
def c3StaleState : MonitorState :=
  { sensorLastSeen := fun d => if d = "dev1" then some sampleInfo else none
    sensorStatus := fun d => if d = "dev1" then some Status.stale else none
    eventLog := { events := [], sensors := fun _ => none }
    timeline := fun _ => []
    readings := fun _ => none }

/-- Witness for C3: a message for the stale device `dev1` yields exactly one
`online` event and puts the device online. -/
theorem processMessage_transitions_witness :
    ((processMessage c3StaleState "yl-home/home1/dev1/report"
        (Payload.parsed none none) 5000).2.filter
          (fun e => decide (e.type = EventType.online))).length = 1
    ∧ (processMessage c3StaleState "yl-home/home1/dev1/report"
        (Payload.parsed none none) 5000).1.sensorStatus "dev1" = some Status.online := by
  have h := processMessage_transitions c3StaleState "yl-home/home1/dev1/report"
    none none 5000 "dev1" rfl (by decide)
  exact ⟨(h.2.2.1 (Or.inr (by simp [c3StaleState]))).1, h.2.1⟩

-- ─── C10: domain invariant of the two in-memory maps ───

/-- Every device with a `sensorStatus` entry also has a `sensorLastSeen`
entry. -/
def Inv (st : MonitorState) : Prop :=
  ∀ d, (st.sensorStatus d).isSome → (st.sensorLastSeen d).isSome

/-- The message handler preserves the domain invariant. -/
theorem processMessage_inv (st : MonitorState) (topic : String)
    (payload : Payload) (now : Nat) (h : Inv st) :
    Inv (processMessage st topic payload now).1 := by
  cases payload with
  | malformed => exact h
  | parsed ef df =>
    cases hg : (jsSplit topic '/').get? 2 with
    | none =>
      simp only [processMessage, hg]
      exact h
    | some d0 =>
      by_cases he : d0 = ""
      · simp only [processMessage, hg]
        rw [if_pos he]
        exact h
      · simp only [processMessage, hg]
        rw [if_neg he]
        intro d' hd'
        by_cases hdd : d' = d0
        · subst hdd
          simp [updMap]
        · simp only [updMap] at hd' ⊢
          rw [if_neg hdd] at hd' ⊢
          exact h d' hd'

/-- The full sweep never touches the `sensorLastSeen` map. -/
theorem checkForOfflineSensors_lastSeen (devices : List DeviceId) :
    ∀ (st : MonitorState) (now : Nat),
      (checkForOfflineSensors st devices now).1.sensorLastSeen = st.sensorLastSeen := by
  induction devices with
  | nil => intro st now; rfl
  | cons d rest ih =>
    intro st now
    simp only [checkForOfflineSensors]
    cases hls : st.sensorLastSeen d with
    | none => exact ih st now
    | some info =>
      rw [ih (sweepDevice st d info now).1 now]
      exact sweepDevice_lastSeen st d info now

/-- The full sweep preserves the domain invariant. -/
theorem checkForOfflineSensors_inv (devices : List DeviceId) :
    ∀ (st : MonitorState) (now : Nat), Inv st →
      Inv (checkForOfflineSensors st devices now).1 := by
  induction devices with
  | nil => intro st now h; exact h
  | cons d rest ih =>
    intro st now h
    simp only [checkForOfflineSensors]
    cases hls : st.sensorLastSeen d with
    | none => exact ih st now h
    | some info =>
      refine ih (sweepDevice st d info now).1 now ?_
      intro d' hd'
      rw [sweepDevice_lastSeen st d info now]
      by_cases hdd : d' = d
      · subst hdd
        rw [hls]
        rfl
      · rw [sweepDevice_status_other st d info now d' hdd] at hd'
        exact h d' hd'

/-- The sweep never changes the status of a device with no last-seen
record. -/
theorem checkForOfflineSensors_untouched (devices : List DeviceId) :
    ∀ (st : MonitorState) (now : Nat) (d : DeviceId),
      st.sensorLastSeen d = none →
      (checkForOfflineSensors st devices now).1.sensorStatus d = st.sensorStatus d := by
  induction devices with
  | nil => intro st now d _; rfl
  | cons d0 rest ih =>
    intro st now d hnone
    simp only [checkForOfflineSensors]
    cases hls : st.sensorLastSeen d0 with
    | none => exact ih st now d hnone
    | some info =>
      have hdd : d ≠ d0 := by
        intro he
        rw [he, hls] at hnone
        cases hnone
      have hnone' : (sweepDevice st d0 info now).1.sensorLastSeen d = none := by
        rw [sweepDevice_lastSeen st d0 info now]
        exact hnone
      rw [ih (sweepDevice st d0 info now).1 now d hnone']
      exact sweepDevice_status_other st d0 info now d hdd

/-- **C10.** Both the message handler and the sweep preserve the invariant
`domain(sensorStatus) ⊆ domain(sensorLastSeen)`; consequently a never-seen
device — one with no last-seen record — is never transitioned by a sweep
(its status entry, in particular `none`/`unknown`, is left untouched, so
it can never become `stale` or `offline`). -/
theorem statusDomain_invariant (st : MonitorState) (topic : String)
    (payload : Payload) (devices : List DeviceId) (now now' : Nat)
    (h : Inv st) :
    Inv (processMessage st topic payload now).1
    ∧ Inv (checkForOfflineSensors st devices now').1
    ∧ (∀ d, st.sensorLastSeen d = none →
        (checkForOfflineSensors st devices now').1.sensorStatus d = st.sensorStatus d) :=
  ⟨processMessage_inv st topic payload now h,
   checkForOfflineSensors_inv devices st now' h,
   fun d hd => checkForOfflineSensors_untouched devices st now' d hd⟩

/-- Witness for C10: sweeping the state that knows only `dev1` leaves the
status of the never-seen device `never` unchanged (`unknown`). -/
theorem statusDomain_invariant_witness :
    (checkForOfflineSensors c9OfflineState ["dev1"] 1000000000).1.sensorStatus "never"
      = none := by
  have hInv : Inv c9OfflineState := by
    intro d hd
    by_cases hdd : d = "dev1"
    · simp [c9OfflineState, hdd]
    · simp [c9OfflineState, hdd] at hd
  have h := (statusDomain_invariant c9OfflineState "t" Payload.malformed
    ["dev1"] 0 1000000000 hInv).2.2 "never" (by simp [c9OfflineState])
  rw [h]
  simp [c9OfflineState]

end WaterSystem
